import Mathlib

/-!
Shallow embedding of the SoundSlide firmware core (gesture.cpp, keys.cpp).

Machine integers are modelled as `Int`/`Nat`; the 8-bit signed queue cells
(`signed char queue[4]`) wrap through `wrap8`, and report bytes
(`unsigned char txBuffer[4]`) are reduced mod 256 at store time.
-/

namespace SoundSlide

/-- Key identifiers from keys.cpp. -/
def KEY_VOLUME_UP : Int := 0

def KEY_VOLUME_DOWN : Int := 1

def KEY_BRIGHTNESS_UP : Int := 2

def KEY_BRIGHTNESS_DOWN : Int := 3

def KEY_MIC_MUTE : Int := 4

def KEY_LOCK_WORKSTATION : Int := 5

/-- Conversion of an `int` value to a stored `signed char`
(two's-complement truncation to the range -128..127). -/
def wrap8 (x : Int) : Int := (x + 128) % 256 - 128

/-- Keyboard modifier bit for the Windows/GUI key (byte 2 of the report). -/
def MODIFIER_LEFT_GUI : Nat := 0x08

/-- Key code of the letter L (byte 3 of the report). -/
def KEY_CODE_L : Nat := 0x0F

/-- The mutable state of `HidEndpoint`: pending key, pacing counter, pending
scroll value. -/
structure HState where
  key : Int
  count : Int
  scroll : Int
deriving DecidableEq, Repr

/-- One 4-byte HID report as placed in `txBuffer`. -/
structure Report where
  b0 : Nat
  b1 : Nat
  b2 : Nat
  b3 : Nat
deriving DecidableEq, Repr

/-- `HidEndpoint::sendReport`: builds the 4-byte report from the current
state and transmits it (the returned `Report`), returning the new state.
The buffer is cleared, the phase bytes are filled while the pacing counter
is positive (even counter = key down, odd = key up), the counter is
decremented, then the scroll byte is written and the pending scroll is
cleared.  `(1 << key)` stored into an `unsigned char` is `2 ^ key % 256`
(the firmware only ever passes keys 0..5). -/
def sendReport (s : HState) : Report × HState :=
  if 0 < s.count then
    let keyDown := s.count % 2 = 0
    let r : Report :=
      if s.key = KEY_LOCK_WORKSTATION then
        if keyDown then
          ⟨0, (s.scroll % 256).toNat, MODIFIER_LEFT_GUI, KEY_CODE_L⟩
        else
          ⟨0, (s.scroll % 256).toNat, 0, 0⟩
      else
        if keyDown then
          ⟨2 ^ s.key.toNat % 256, (s.scroll % 256).toNat, 0, 0⟩
        else
          ⟨0, (s.scroll % 256).toNat, 0, 0⟩
    (r, ⟨s.key, s.count - 1, 0⟩)
  else
    (⟨0, (s.scroll % 256).toNat, 0, 0⟩, ⟨s.key, s.count, 0⟩)

/-- Iterated `HidEndpoint::txComplete`: each transmit-complete notification
re-invokes `sendReport` while the pacing counter is nonzero.  `fuel` bounds
the number of notifications delivered; the transmitted reports are
collected in order. -/
def txCompleteRun : Nat → HState → List Report × HState
  | 0, s => ([], s)
  | fuel + 1, s =>
      if s.count ≠ 0 then
        let p := sendReport s
        let q := txCompleteRun fuel p.2
        (p.1 :: q.1, q.2)
      else ([], s)

/-- `HidEndpoint::reportKey` followed by up to `fuel` transmit-complete
notifications: with a nonzero magnitude it latches the key, sets the pacing
counter to twice the magnitude and transmits immediately; the collected
list is every report transmitted during the episode. -/
def reportKey (s : HState) (key count : Int) (fuel : Nat) : List Report × HState :=
  if count ≠ 0 then
    let s0 : HState := ⟨key, count * 2, s.scroll⟩
    let p := sendReport s0
    let q := txCompleteRun fuel p.2
    (p.1 :: q.1, q.2)
  else ([], s)

/-- `HidEndpoint::reportScroll` followed by up to `fuel` transmit-complete
notifications: it zeroes the pending key and the pacing counter, latches
the scroll value and transmits immediately. -/
def reportScroll (s : HState) (steps : Int) (fuel : Nat) : List Report × HState :=
  let s0 : HState := ⟨0, 0, steps⟩
  let p := sendReport s0
  let q := txCompleteRun fuel p.2
  (p.1 :: q.1, q.2)

/-- The report transmitted in a down phase for a given pending key. -/
def phaseDown (key : Int) : Report :=
  if key = KEY_LOCK_WORKSTATION then ⟨0, 0, MODIFIER_LEFT_GUI, KEY_CODE_L⟩
  else ⟨2 ^ key.toNat % 256, 0, 0, 0⟩

/-- The report transmitted in an up phase (all zeros). -/
def phaseUp : Report := ⟨0, 0, 0, 0⟩

lemma txCompleteRun_of_count_zero (fuel : Nat) (s : HState) (h : s.count = 0) :
    txCompleteRun fuel s = ([], s) := by
  cases fuel with
  | zero => rfl
  | succ n => simp [txCompleteRun, h]

lemma txCompleteRun_spec :
    ∀ (fuel : Nat) (k m : Int), 0 ≤ m → m.toNat ≤ fuel →
      (txCompleteRun fuel ⟨k, m, 0⟩).1.length = m.toNat ∧
      (∀ i (h : i < (txCompleteRun fuel ⟨k, m, 0⟩).1.length),
        (txCompleteRun fuel ⟨k, m, 0⟩).1.get ⟨i, h⟩ =
          if (m - i) % 2 = 0 then phaseDown k else phaseUp) ∧
      (txCompleteRun fuel ⟨k, m, 0⟩).2 = ⟨k, 0, 0⟩ := by
  intro fuel
  induction fuel with
  | zero =>
      intro k m h0 hle
      have hz : m = 0 := by omega
      subst hz
      refine ⟨by simp [txCompleteRun], ?_, by simp [txCompleteRun]⟩
      intro i h
      simp [txCompleteRun] at h
  | succ n ih =>
      intro k m h0 hle
      by_cases hz : m = 0
      · subst hz
        rw [txCompleteRun_of_count_zero _ _ rfl]
        refine ⟨by simp, ?_, rfl⟩
        intro i h
        simp at h
      · have hpos : (0 : Int) < m := by omega
        have hsr : sendReport ⟨k, m, 0⟩ =
            ((if m % 2 = 0 then phaseDown k else phaseUp), ⟨k, m - 1, 0⟩) := by
          simp only [sendReport, phaseDown, phaseUp]
          rw [if_pos hpos]
          split_ifs <;> simp_all
        have hstep : txCompleteRun (n + 1) ⟨k, m, 0⟩ =
            ((if m % 2 = 0 then phaseDown k else phaseUp) ::
              (txCompleteRun n ⟨k, m - 1, 0⟩).1,
              (txCompleteRun n ⟨k, m - 1, 0⟩).2) := by
          have hc : (⟨k, m, 0⟩ : HState).count ≠ 0 := hz
          simp only [txCompleteRun, if_pos hc, hsr]
        obtain ⟨hlen, hget, hfin⟩ := ih k (m - 1) (by omega) (by omega)
        rw [hstep]
        refine ⟨?_, ?_, hfin⟩
        · simp only [List.length_cons, hlen]
          omega
        · intro i h
          match i with
          | 0 =>
              simp only [List.get_cons_zero]
              refine if_congr ?_ rfl rfl
              omega
          | j + 1 =>
              have hj : j < (txCompleteRun n ⟨k, m - 1, 0⟩).1.length := by
                simp only [List.length_cons] at h
                omega
              simp only [List.get_cons_succ]
              rw [hget j hj]
              refine if_congr ?_ rfl rfl
              push_cast
              omega

/-- C3: for every key event with positive magnitude `n`, `reportKey key n`
causes exactly `2 * n` transmissions; the phases alternate strictly
down, up, down, up starting with down; each transmission decrements the
pacing counter by one; the continued transmissions are driven by
transmit-complete notifications, and after the `2 * n`-th transmission
the pacing counter is zero and a completion notification transmits
nothing further. -/
theorem C3_reportKey_paced_phases (s : HState) (key n : Int) (fuel : Nat)
    (hn : 1 ≤ n) (hs : s.scroll = 0) (hf : (2 * n).toNat ≤ fuel + 1) :
    (reportKey s key n fuel).1.length = (2 * n).toNat ∧
    (∀ i (h : i < (reportKey s key n fuel).1.length),
      (reportKey s key n fuel).1.get ⟨i, h⟩ =
        if i % 2 = 0 then phaseDown key else phaseUp) ∧
    (reportKey s key n fuel).2.count = 0 ∧
    (∀ f2 : Nat, (txCompleteRun f2 (reportKey s key n fuel).2).1 = []) ∧
    (∀ t : HState, 0 < t.count → (sendReport t).2.count = t.count - 1) := by
  have hne : n ≠ 0 := by omega
  have hpos : (0 : Int) < n * 2 := by omega
  have hsr : sendReport ⟨key, n * 2, s.scroll⟩ = (phaseDown key, ⟨key, n * 2 - 1, 0⟩) := by
    simp only [sendReport, phaseDown]
    rw [if_pos hpos, hs]
    have hpar : (n * 2) % 2 = 0 := by omega
    split_ifs <;> simp_all
  have hstep : reportKey s key n fuel =
      (phaseDown key :: (txCompleteRun fuel ⟨key, n * 2 - 1, 0⟩).1,
        (txCompleteRun fuel ⟨key, n * 2 - 1, 0⟩).2) := by
    simp only [reportKey, if_pos hne, hsr]
  obtain ⟨hlen, hget, hfin⟩ := txCompleteRun_spec fuel key (n * 2 - 1) (by omega) (by omega)
  rw [hstep]
  refine ⟨?_, ?_, ?_, ?_, ?_⟩
  · simp only [List.length_cons, hlen]
    omega
  · intro i h
    match i with
    | 0 => simp
    | j + 1 =>
        have hj : j < (txCompleteRun fuel ⟨key, n * 2 - 1, 0⟩).1.length := by
          simp only [List.length_cons] at h
          omega
        simp only [List.get_cons_succ]
        rw [hget j hj]
        refine if_congr ?_ rfl rfl
        omega
  · rw [hfin]
  · intro f2
    rw [hfin]
    exact congrArg Prod.fst (txCompleteRun_of_count_zero f2 ⟨key, 0, 0⟩ rfl)
  · intro t ht
    simp only [sendReport]
    rw [if_pos ht]

/-- Witness for C3 at `key = 0`, `n = 1`, idle start, two completion slots. -/
theorem C3_reportKey_paced_phases_witness :
    (1 : Int) ≤ 1 ∧ (⟨0, 0, 0⟩ : HState).scroll = 0 ∧ ((2 : Int) * 1).toNat ≤ 1 + 1 ∧
    ((reportKey ⟨0, 0, 0⟩ 0 1 1).1.length = ((2 : Int) * 1).toNat ∧
    (∀ i (h : i < (reportKey (⟨0, 0, 0⟩ : HState) 0 1 1).1.length),
      (reportKey (⟨0, 0, 0⟩ : HState) 0 1 1).1.get ⟨i, h⟩ =
        if i % 2 = 0 then phaseDown 0 else phaseUp) ∧
    (reportKey (⟨0, 0, 0⟩ : HState) 0 1 1).2.count = 0 ∧
    (∀ f2 : Nat, (txCompleteRun f2 (reportKey (⟨0, 0, 0⟩ : HState) 0 1 1).2).1 = []) ∧
    (∀ t : HState, 0 < t.count → (sendReport t).2.count = t.count - 1)) :=
  ⟨by decide, rfl, by decide, C3_reportKey_paced_phases ⟨0, 0, 0⟩ 0 1 1 (by decide) rfl (by decide)⟩

/-- C7: a scroll event with value 0 produces exactly one transmission, an
all-zero 4-byte report; the pacing counter is not engaged (it stays zero,
so no completion-driven follow-up occurs) and the pending scroll value is
cleared after being written into that one report. -/
theorem C7_scroll_zero_single_report (s : HState) (fuel : Nat) :
    reportScroll s 0 fuel = ([⟨0, 0, 0, 0⟩], ⟨0, 0, 0⟩) := by
  have h1 : sendReport ⟨0, 0, 0⟩ = (⟨0, 0, 0, 0⟩, ⟨0, 0, 0⟩) := by
    simp [sendReport]
  simp only [reportScroll, h1]
  rw [txCompleteRun_of_count_zero fuel ⟨0, 0, 0⟩ rfl]

/-- C9: `reportScroll`, invoked from any state (in particular while a phased
key sequence is still in progress, pacing counter nonzero), zeroes the
pending key and the pacing counter before transmitting: exactly one report
goes out, it carries no key phase (bytes 0, 2, 3 are zero), the post state
is fully idle, and any number of further completion notifications transmit
nothing. -/
theorem C9_reportScroll_cancels_key_phases (s : HState) (steps : Int) (fuel f2 : Nat) :
    (reportScroll s steps fuel).1 = [⟨0, (steps % 256).toNat, 0, 0⟩] ∧
    (reportScroll s steps fuel).2 = ⟨0, 0, 0⟩ ∧
    (txCompleteRun f2 (reportScroll s steps fuel).2).1 = [] := by
  have h1 : sendReport ⟨0, 0, steps⟩ = (⟨0, (steps % 256).toNat, 0, 0⟩, ⟨0, 0, 0⟩) := by
    simp [sendReport]
  have h2 : reportScroll s steps fuel = ([⟨0, (steps % 256).toNat, 0, 0⟩], ⟨0, 0, 0⟩) := by
    simp only [reportScroll, h1]
    rw [txCompleteRun_of_count_zero fuel ⟨0, 0, 0⟩ rfl]
  rw [h2]
  exact ⟨rfl, rfl, congrArg Prod.fst (txCompleteRun_of_count_zero f2 ⟨0, 0, 0⟩ rfl)⟩

/-! ### HID interface control-request handling (keys.cpp, HidInterface::setup) -/

def HID_GET_DESCRIPTOR : Nat := 0x06

def HID_DESCRIPTOR_TYPE_REPORT : Nat := 0x22

/-- The HID report descriptor, byte for byte. -/
def hidReportDescriptor : List Nat :=
  [ -- Consumer Control collection
    0x05, 0x0C, 0x09, 0x01, 0xA1, 0x01,
    0x09, 0xE9, 0x09, 0xEA, 0x09, 0x6F, 0x09, 0x70, 0x09, 0xF8,
    0x15, 0x00, 0x25, 0x01, 0x75, 0x01, 0x95, 0x05, 0x81, 0x02,
    0x95, 0x03, 0x81, 0x03, 0xC0,
    -- Mouse scroll collection
    0x05, 0x01, 0x09, 0x02, 0xA1, 0x01, 0x09, 0x01, 0xA1, 0x00,
    0x09, 0x38, 0x15, 0x81, 0x25, 0x7F, 0x75, 0x08, 0x95, 0x01,
    0x81, 0x06, 0xC0, 0xC0,
    -- Keyboard collection
    0x05, 0x01, 0x09, 0x06, 0xA1, 0x01,
    0x05, 0x07, 0x19, 0xE0, 0x29, 0xE7, 0x15, 0x00, 0x25, 0x01,
    0x75, 0x01, 0x95, 0x08, 0x81, 0x02,
    0x05, 0x07, 0x19, 0x00, 0x29, 0x65, 0x15, 0x00, 0x25, 0x65,
    0x75, 0x08, 0x95, 0x01, 0x81, 0x00, 0xC0 ]

/-- The fields of a USB SETUP packet that `HidInterface::setup` inspects. -/
structure SetupData where
  bRequest : Nat
  wValue : Nat
  wIndex : Nat
deriving DecidableEq, Repr

/-- The observable outcome of a control request on the HID interface. -/
inductive HidAction where
  | transmit (bytes : List Nat)
  | stall
deriving DecidableEq, Repr

/-- `HidInterface::setup`: answer a get-report-descriptor request with the
full descriptor, stall everything else.  (In the C source the condition is
written `setup->wValue == (HID_DESCRIPTOR_TYPE_REPORT << 8) | 0`; by C
operator precedence the `| 0` applies to the boolean comparison result and
is a no-op, so the test is exactly `wValue == 0x2200`.) -/
def hidSetup (sd : SetupData) : HidAction :=
  if sd.bRequest = HID_GET_DESCRIPTOR ∧
      sd.wValue = HID_DESCRIPTOR_TYPE_REPORT <<< 8 ∧ sd.wIndex = 0 then
    HidAction.transmit hidReportDescriptor
  else
    HidAction.stall

/-- C8: the full report descriptor is transmitted exactly when the control
request is the class-specific get-report-descriptor request for this
interface (`bRequest = HID_GET_DESCRIPTOR`, `wValue` = report-descriptor
type with descriptor index 0, i.e. 0x2200, `wIndex = 0`); every other
control request on the interface is answered by stalling the transfer. -/
theorem C8_setup_descriptor_or_stall (sd : SetupData) :
    (hidSetup sd = HidAction.transmit hidReportDescriptor ↔
      (sd.bRequest = HID_GET_DESCRIPTOR ∧ sd.wValue = 0x2200 ∧ sd.wIndex = 0)) ∧
    (hidSetup sd = HidAction.stall ↔
      ¬(sd.bRequest = HID_GET_DESCRIPTOR ∧ sd.wValue = 0x2200 ∧ sd.wIndex = 0)) := by
  have hv : HID_DESCRIPTOR_TYPE_REPORT <<< 8 = 0x2200 := by decide
  unfold hidSetup
  rw [hv]
  split_ifs with h <;> simp [h]

/-! ### Gesture decoder (gesture.cpp) -/

/-- The configured slide function. -/
inductive DeviceFunction where
  | volume
  | brightness
  | scroll
deriving DecidableEq, Repr

/-- The configuration fields read by the decoder
(`deviceConfiguration->data.fields`). -/
structure DeviceConfig where
  flip : Bool
  scale : Int
  function : DeviceFunction
deriving DecidableEq, Repr

/-- A call into the `KeyReporter` interface. -/
inductive Event where
  | key (k : Int) (count : Int)
  | scroll (steps : Int)
deriving DecidableEq, Repr

def TAP_MAX_DURATION : Int := 15

def DOUBLE_TAP_WINDOW : Int := 20

/-- The mutable state of `GestureDecoder`. -/
structure GState where
  oldFingerPos : Int
  q0 : Int
  q1 : Int
  q2 : Int
  q3 : Int
  touchStartTime : Int
  lastTapTime : Int
  currentTime : Int
  hasMoved : Bool
  isTouching : Bool
  waitingForDoubleTap : Bool
  releaseProcessed : Bool
deriving DecidableEq, Repr

/-- The decoder state right after `init` (member initialisers). -/
def gInit : GState :=
  { oldFingerPos := -1, q0 := 0, q1 := 0, q2 := 0, q3 := 0,
    touchStartTime := 0, lastTapTime := 0, currentTime := 0,
    hasMoved := false, isTouching := false,
    waitingForDoubleTap := false, releaseProcessed := true }

/-- The scan loop of `checkSensor`: running maximum, index of the (first)
maximum, and running sum, over the channel intensities (`i` is the index of
the first list element). -/
def sensorScanAux : List Nat → Nat → Nat → Nat → Nat → Nat × Nat × Nat
  | [], _, mx, mi, sm => (mx, mi, sm)
  | v :: rest, i, mx, mi, sm =>
      if v > mx then sensorScanAux rest (i + 1) v i (sm + v)
      else sensorScanAux rest (i + 1) mx mi (sm + v)

/-- The position-tracker part of `checkSensor` (lines 62-82): the maximal
channel index if the maximum strictly exceeds twice the integer average
(`avg = avg / channelCount`, C integer division), otherwise -1 for "no
contact".  Channel intensities are the sensor's nonnegative readings. -/
def fingerPosFrom (sample : List Nat) : Int :=
  let r := sensorScanAux sample 0 0 0 0
  let avg := r.2.2 / sample.length
  if r.1 > avg * 2 then (r.2.1 : Int) else -1

/-- `GestureDecoder::checkSensor`: derive the new finger position, update
the touch bookkeeping, and on a position change between two valid
positions insert the (optionally flipped, scaled) delta into queue slot 0
(stored as a `signed char`, hence `wrap8`). -/
def checkSensor (cfg : DeviceConfig) (sample : List Nat) (s : GState) : GState :=
  let newFingerPos := fingerPosFrom sample
  let s1 :=
    if 0 ≤ newFingerPos ∧ s.isTouching = false then
      { s with isTouching := true, touchStartTime := s.currentTime,
               hasMoved := false, releaseProcessed := false }
    else if newFingerPos < 0 ∧ s.isTouching = true then
      { s with isTouching := false }
    else s
  let s2 :=
    if newFingerPos ≠ s.oldFingerPos ∧ 0 ≤ newFingerPos ∧ 0 ≤ s.oldFingerPos then
      let change := s.oldFingerPos - newFingerPos
      if change ≠ 0 then
        let change2 := if cfg.flip then -change else change
        { s1 with hasMoved := true, q0 := wrap8 (change2 * cfg.scale) }
      else s1
    else s1
  { s2 with oldFingerPos := newFingerPos }

/-- `GestureDecoder::checkTap`: resolve a just-observed release into a
double tap or an armed wait, then resolve an expired double-tap wait into
a single tap (microphone mute). -/
def checkTap (s : GState) : GState × List Event :=
  let p :=
    if s.isTouching = false ∧ s.releaseProcessed = false then
      let touchDuration := s.currentTime - s.touchStartTime
      if touchDuration < TAP_MAX_DURATION ∧ 0 < touchDuration ∧ s.hasMoved = false then
        if s.waitingForDoubleTap = true ∧ s.currentTime - s.lastTapTime < DOUBLE_TAP_WINDOW then
          ({ s with releaseProcessed := true, waitingForDoubleTap := false },
            [Event.key KEY_LOCK_WORKSTATION 1])
        else
          ({ s with releaseProcessed := true, waitingForDoubleTap := true,
                    lastTapTime := s.currentTime }, [])
      else ({ s with releaseProcessed := true }, [])
    else (s, [])
  if p.1.waitingForDoubleTap = true ∧ DOUBLE_TAP_WINDOW ≤ p.1.currentTime - p.1.lastTapTime then
    ({ p.1 with waitingForDoubleTap := false }, p.2 ++ [Event.key KEY_MIC_MUTE 1])
  else p

/-- Sum of the positive queue entries (`positives` in `optimizeQueue`). -/
def posSum (s : GState) : Int :=
  (if 0 < s.q0 then s.q0 else 0) + (if 0 < s.q1 then s.q1 else 0) +
  (if 0 < s.q2 then s.q2 else 0) + (if 0 < s.q3 then s.q3 else 0)

/-- Sum of the absolute values of the negative queue entries (`negatives`). -/
def negSum (s : GState) : Int :=
  (if s.q0 < 0 then -s.q0 else 0) + (if s.q1 < 0 then -s.q1 else 0) +
  (if s.q2 < 0 then -s.q2 else 0) + (if s.q3 < 0 then -s.q3 else 0)

/-- The zeroing pass of `optimizeQueue`: entries on the majority side
(`queue[i] * side > 0`) are cleared. -/
def zeroSide (side x : Int) : Int := if x * side > 0 then 0 else x

/-- One iteration of the redistribution loop of `optimizeQueue`: the entry
absorbs as much of the remaining correction as its magnitude allows, moving
opposite to its current sign; the store back into the `signed char` cell
goes through `wrap8`.  Returns (new entry, remaining correction). -/
def absorb (side corr v0 : Int) : Int × Int :=
  let v := if v0 < 0 then -v0 else v0
  let c := if corr > v then v else corr
  (wrap8 (v0 + c * side), corr - c)

/-- `GestureDecoder::optimizeQueue`: cancel the minority-magnitude side and
redistribute the cancelled amount over the majority side from the oldest
slot (index 3) toward slot 0. -/
def optimizeQueue (s : GState) : GState :=
  if posSum s > negSum s then
    let z0 := zeroSide (-1) s.q0
    let z1 := zeroSide (-1) s.q1
    let z2 := zeroSide (-1) s.q2
    let z3 := zeroSide (-1) s.q3
    let r3 := absorb (-1) (negSum s) z3
    let r2 := absorb (-1) r3.2 z2
    let r1 := absorb (-1) r2.2 z1
    let r0 := absorb (-1) r1.2 z0
    { s with q0 := r0.1, q1 := r1.1, q2 := r2.1, q3 := r3.1 }
  else
    let z0 := zeroSide 1 s.q0
    let z1 := zeroSide 1 s.q1
    let z2 := zeroSide 1 s.q2
    let z3 := zeroSide 1 s.q3
    let r3 := absorb 1 (posSum s) z3
    let r2 := absorb 1 r3.2 z2
    let r1 := absorb 1 r2.2 z1
    let r0 := absorb 1 r1.2 z0
    { s with q0 := r0.1, q1 := r1.1, q2 := r2.1, q3 := r3.1 }

/-- The event(s) dispatched for the reported change under a given slide
function (the switch in `checkQueue`). -/
def slideEvents (f : DeviceFunction) (change : Int) : List Event :=
  match f with
  | .volume =>
      (if 0 < change then [Event.key KEY_VOLUME_UP change] else []) ++
      (if change < 0 then [Event.key KEY_VOLUME_DOWN (-change)] else [])
  | .brightness =>
      (if 0 < change then [Event.key KEY_BRIGHTNESS_UP change] else []) ++
      (if change < 0 then [Event.key KEY_BRIGHTNESS_DOWN (-change)] else [])
  | .scroll => [Event.scroll change]

/-- `GestureDecoder::checkQueue`: report the oldest slot according to the
configured function, then shift the queue one slot toward the tail and
clear slot 0. -/
def checkQueue (cfg : DeviceConfig) (s : GState) : GState × List Event :=
  let change := s.q3
  ({ s with q3 := s.q2, q2 := s.q1, q1 := s.q0, q0 := 0 },
    slideEvents cfg.function change)

/-- `GestureDecoder::onTimer`: one 20 ms tick. -/
def onTimer (cfg : DeviceConfig) (sample : List Nat) (s : GState) : GState × List Event :=
  let s0 := { s with currentTime := s.currentTime + 1 }
  let s1 := checkSensor cfg sample s0
  let p2 := checkTap s1
  let s3 := optimizeQueue p2.1
  let p4 := checkQueue cfg s3
  (p4.1, p2.2 ++ p4.2)

/-- Run the decoder over a sequence of per-tick samples. -/
def runG (cfg : DeviceConfig) (samples : List (List Nat)) (s : GState) : GState :=
  samples.foldl (fun st smp => (onTimer cfg smp st).1) s

/-! ### The DeltaQueue optimization invariant (C2) -/

lemma zeroSide_one (x : Int) : zeroSide 1 x = min x 0 := by
  unfold zeroSide
  split_ifs <;> omega

lemma zeroSide_negOne (x : Int) : zeroSide (-1) x = max x 0 := by
  unfold zeroSide
  split_ifs <;> omega

lemma absorb_one (corr v0 : Int) (hc : 0 ≤ corr) (hl : -128 ≤ v0) (hv : v0 ≤ 0) :
    (absorb 1 corr v0).1 = v0 + min corr (-v0) ∧
    (absorb 1 corr v0).2 = corr - min corr (-v0) := by
  unfold absorb wrap8
  constructor <;> simp only [] <;> split_ifs <;> omega

lemma absorb_negOne (corr v0 : Int) (hc : 0 ≤ corr) (hr : v0 ≤ 127) (hv : 0 ≤ v0) :
    (absorb (-1) corr v0).1 = v0 - min corr v0 ∧
    (absorb (-1) corr v0).2 = corr - min corr v0 := by
  unfold absorb wrap8
  constructor <;> simp only [] <;> split_ifs <;> omega

lemma posSum_max (s : GState) :
    posSum s = max s.q0 0 + max s.q1 0 + max s.q2 0 + max s.q3 0 := by
  unfold posSum
  split_ifs <;> omega

lemma negSum_max (s : GState) :
    negSum s = max (-s.q0) 0 + max (-s.q1) 0 + max (-s.q2) 0 + max (-s.q3) 0 := by
  unfold negSum
  split_ifs <;> omega

lemma redistribute_negOne (N z0 z1 z2 z3 : Int)
    (hN : 0 ≤ N) (hz0 : 0 ≤ z0 ∧ z0 ≤ 127) (hz1 : 0 ≤ z1 ∧ z1 ≤ 127)
    (hz2 : 0 ≤ z2 ∧ z2 ≤ 127) (hz3 : 0 ≤ z3 ∧ z3 ≤ 127)
    (hcap : N ≤ z0 + z1 + z2 + z3) :
    ∃ E0 E1 E2 E3 : Int,
      (absorb (-1) (absorb (-1) (absorb (-1) (absorb (-1) N z3).2 z2).2 z1).2 z0).1 = E0 ∧
      (absorb (-1) (absorb (-1) (absorb (-1) N z3).2 z2).2 z1).1 = E1 ∧
      (absorb (-1) (absorb (-1) N z3).2 z2).1 = E2 ∧
      (absorb (-1) N z3).1 = E3 ∧
      E0 + E1 + E2 + E3 = z0 + z1 + z2 + z3 - N ∧
      0 ≤ E0 ∧ 0 ≤ E1 ∧ 0 ≤ E2 ∧ 0 ≤ E3 := by
  obtain ⟨⟨E3, K3⟩, hA3⟩ : ∃ p : Int × Int, absorb (-1) N z3 = p := ⟨_, rfl⟩
  have e3 := absorb_negOne N z3 hN (by omega) (by omega)
  rw [hA3] at e3
  dsimp only at e3
  obtain ⟨⟨E2, K2⟩, hA2⟩ : ∃ p : Int × Int, absorb (-1) K3 z2 = p := ⟨_, rfl⟩
  have e2 := absorb_negOne K3 z2 (by omega) (by omega) (by omega)
  rw [hA2] at e2
  dsimp only at e2
  obtain ⟨⟨E1, K1⟩, hA1⟩ : ∃ p : Int × Int, absorb (-1) K2 z1 = p := ⟨_, rfl⟩
  have e1 := absorb_negOne K2 z1 (by omega) (by omega) (by omega)
  rw [hA1] at e1
  dsimp only at e1
  obtain ⟨⟨E0, K0⟩, hA0⟩ : ∃ p : Int × Int, absorb (-1) K1 z0 = p := ⟨_, rfl⟩
  have e0 := absorb_negOne K1 z0 (by omega) (by omega) (by omega)
  rw [hA0] at e0
  dsimp only at e0
  refine ⟨E0, E1, E2, E3, ?_, ?_, ?_, ?_, by omega, by omega, by omega, by omega, by omega⟩
  · rw [hA3]; dsimp only; rw [hA2]; dsimp only; rw [hA1]; dsimp only; rw [hA0]
  · rw [hA3]; dsimp only; rw [hA2]; dsimp only; rw [hA1]
  · rw [hA3]; dsimp only; rw [hA2]
  · rw [hA3]

lemma redistribute_one (P z0 z1 z2 z3 : Int)
    (hP : 0 ≤ P) (hz0 : -128 ≤ z0 ∧ z0 ≤ 0) (hz1 : -128 ≤ z1 ∧ z1 ≤ 0)
    (hz2 : -128 ≤ z2 ∧ z2 ≤ 0) (hz3 : -128 ≤ z3 ∧ z3 ≤ 0)
    (hcap : P ≤ -(z0 + z1 + z2 + z3)) :
    ∃ E0 E1 E2 E3 : Int,
      (absorb 1 (absorb 1 (absorb 1 (absorb 1 P z3).2 z2).2 z1).2 z0).1 = E0 ∧
      (absorb 1 (absorb 1 (absorb 1 P z3).2 z2).2 z1).1 = E1 ∧
      (absorb 1 (absorb 1 P z3).2 z2).1 = E2 ∧
      (absorb 1 P z3).1 = E3 ∧
      E0 + E1 + E2 + E3 = z0 + z1 + z2 + z3 + P ∧
      E0 ≤ 0 ∧ E1 ≤ 0 ∧ E2 ≤ 0 ∧ E3 ≤ 0 := by
  obtain ⟨⟨E3, K3⟩, hA3⟩ : ∃ p : Int × Int, absorb 1 P z3 = p := ⟨_, rfl⟩
  have e3 := absorb_one P z3 hP (by omega) (by omega)
  rw [hA3] at e3
  dsimp only at e3
  obtain ⟨⟨E2, K2⟩, hA2⟩ : ∃ p : Int × Int, absorb 1 K3 z2 = p := ⟨_, rfl⟩
  have e2 := absorb_one K3 z2 (by omega) (by omega) (by omega)
  rw [hA2] at e2
  dsimp only at e2
  obtain ⟨⟨E1, K1⟩, hA1⟩ : ∃ p : Int × Int, absorb 1 K2 z1 = p := ⟨_, rfl⟩
  have e1 := absorb_one K2 z1 (by omega) (by omega) (by omega)
  rw [hA1] at e1
  dsimp only at e1
  obtain ⟨⟨E0, K0⟩, hA0⟩ : ∃ p : Int × Int, absorb 1 K1 z0 = p := ⟨_, rfl⟩
  have e0 := absorb_one K1 z0 (by omega) (by omega) (by omega)
  rw [hA0] at e0
  dsimp only at e0
  refine ⟨E0, E1, E2, E3, ?_, ?_, ?_, ?_, by omega, by omega, by omega, by omega, by omega⟩
  · rw [hA3]; dsimp only; rw [hA2]; dsimp only; rw [hA1]; dsimp only; rw [hA0]
  · rw [hA3]; dsimp only; rw [hA2]; dsimp only; rw [hA1]
  · rw [hA3]; dsimp only; rw [hA2]
  · rw [hA3]

set_option maxHeartbeats 1000000 in
/-- C2: for any 4-entry queue of `signed char` contents, one run of
`optimizeQueue` preserves the sum of the entries — which therefore equals
`positiveSum - negativeSum` of the pre-pass contents — and leaves no two
nonzero entries of opposite signs (all entries end nonnegative or all end
nonpositive). -/
theorem C2_optimizeQueue_invariant (s : GState)
    (h0 : -128 ≤ s.q0 ∧ s.q0 ≤ 127) (h1 : -128 ≤ s.q1 ∧ s.q1 ≤ 127)
    (h2 : -128 ≤ s.q2 ∧ s.q2 ≤ 127) (h3 : -128 ≤ s.q3 ∧ s.q3 ≤ 127) :
    ((optimizeQueue s).q0 + (optimizeQueue s).q1 + (optimizeQueue s).q2 + (optimizeQueue s).q3
        = s.q0 + s.q1 + s.q2 + s.q3) ∧
    ((optimizeQueue s).q0 + (optimizeQueue s).q1 + (optimizeQueue s).q2 + (optimizeQueue s).q3
        = posSum s - negSum s) ∧
    ((0 ≤ (optimizeQueue s).q0 ∧ 0 ≤ (optimizeQueue s).q1 ∧
        0 ≤ (optimizeQueue s).q2 ∧ 0 ≤ (optimizeQueue s).q3) ∨
      ((optimizeQueue s).q0 ≤ 0 ∧ (optimizeQueue s).q1 ≤ 0 ∧
        (optimizeQueue s).q2 ≤ 0 ∧ (optimizeQueue s).q3 ≤ 0)) := by
  have hps := posSum_max s
  have hns := negSum_max s
  have hpsn : 0 ≤ posSum s := by rw [hps]; omega
  have hnsn : 0 ≤ negSum s := by rw [hns]; omega
  by_cases hbr : posSum s > negSum s
  · -- positives dominate: negatives are zeroed, correction = negSum s, side = -1
    have hopt : optimizeQueue s =
        { s with
          q0 := (absorb (-1) (absorb (-1) (absorb (-1) (absorb (-1) (negSum s) (max s.q3 0)).2 (max s.q2 0)).2 (max s.q1 0)).2 (max s.q0 0)).1,
          q1 := (absorb (-1) (absorb (-1) (absorb (-1) (negSum s) (max s.q3 0)).2 (max s.q2 0)).2 (max s.q1 0)).1,
          q2 := (absorb (-1) (absorb (-1) (negSum s) (max s.q3 0)).2 (max s.q2 0)).1,
          q3 := (absorb (-1) (negSum s) (max s.q3 0)).1 } := by
      simp only [optimizeQueue, if_pos hbr, zeroSide_negOne]
    have hcap : negSum s ≤ max s.q0 0 + max s.q1 0 + max s.q2 0 + max s.q3 0 := by
      rw [← hps]; omega
    obtain ⟨E0, E1, E2, E3, hq0, hq1, hq2, hq3, hsum, p0, p1, p2, p3⟩ :=
      redistribute_negOne (negSum s) (max s.q0 0) (max s.q1 0) (max s.q2 0) (max s.q3 0)
        hnsn (by omega) (by omega) (by omega) (by omega) hcap
    rw [hq0, hq1, hq2, hq3] at hopt
    rw [hopt]
    dsimp only
    refine ⟨by omega, by omega, Or.inl ⟨by omega, by omega, by omega, by omega⟩⟩
  · -- negatives dominate or tie: positives are zeroed, correction = posSum s, side = 1
    have hopt : optimizeQueue s =
        { s with
          q0 := (absorb 1 (absorb 1 (absorb 1 (absorb 1 (posSum s) (min s.q3 0)).2 (min s.q2 0)).2 (min s.q1 0)).2 (min s.q0 0)).1,
          q1 := (absorb 1 (absorb 1 (absorb 1 (posSum s) (min s.q3 0)).2 (min s.q2 0)).2 (min s.q1 0)).1,
          q2 := (absorb 1 (absorb 1 (posSum s) (min s.q3 0)).2 (min s.q2 0)).1,
          q3 := (absorb 1 (posSum s) (min s.q3 0)).1 } := by
      simp only [optimizeQueue, if_neg hbr, zeroSide_one]
    have hcap : posSum s ≤ -(min s.q0 0 + min s.q1 0 + min s.q2 0 + min s.q3 0) := by
      rw [hns] at hbr
      omega
    obtain ⟨E0, E1, E2, E3, hq0, hq1, hq2, hq3, hsum, p0, p1, p2, p3⟩ :=
      redistribute_one (posSum s) (min s.q0 0) (min s.q1 0) (min s.q2 0) (min s.q3 0)
        hpsn (by omega) (by omega) (by omega) (by omega) hcap
    rw [hq0, hq1, hq2, hq3] at hopt
    rw [hopt]
    dsimp only
    refine ⟨by omega, by omega, Or.inr ⟨by omega, by omega, by omega, by omega⟩⟩

/-- Witness for C2 at the queue contents (3, -1, 2, -5). -/
theorem C2_optimizeQueue_invariant_witness :
    ((-128 ≤ (3 : Int) ∧ (3 : Int) ≤ 127) ∧ (-128 ≤ (-1 : Int) ∧ (-1 : Int) ≤ 127) ∧
      (-128 ≤ (2 : Int) ∧ (2 : Int) ≤ 127) ∧ (-128 ≤ (-5 : Int) ∧ (-5 : Int) ≤ 127)) ∧
    (((optimizeQueue { gInit with q0 := 3, q1 := -1, q2 := 2, q3 := -5 }).q0 +
        (optimizeQueue { gInit with q0 := 3, q1 := -1, q2 := 2, q3 := -5 }).q1 +
        (optimizeQueue { gInit with q0 := 3, q1 := -1, q2 := 2, q3 := -5 }).q2 +
        (optimizeQueue { gInit with q0 := 3, q1 := -1, q2 := 2, q3 := -5 }).q3
        = 3 + -1 + 2 + -5) ∧
      ((optimizeQueue { gInit with q0 := 3, q1 := -1, q2 := 2, q3 := -5 }).q0 +
        (optimizeQueue { gInit with q0 := 3, q1 := -1, q2 := 2, q3 := -5 }).q1 +
        (optimizeQueue { gInit with q0 := 3, q1 := -1, q2 := 2, q3 := -5 }).q2 +
        (optimizeQueue { gInit with q0 := 3, q1 := -1, q2 := 2, q3 := -5 }).q3
        = posSum { gInit with q0 := 3, q1 := -1, q2 := 2, q3 := -5 } -
            negSum { gInit with q0 := 3, q1 := -1, q2 := 2, q3 := -5 }) ∧
      ((0 ≤ (optimizeQueue { gInit with q0 := 3, q1 := -1, q2 := 2, q3 := -5 }).q0 ∧
          0 ≤ (optimizeQueue { gInit with q0 := 3, q1 := -1, q2 := 2, q3 := -5 }).q1 ∧
          0 ≤ (optimizeQueue { gInit with q0 := 3, q1 := -1, q2 := 2, q3 := -5 }).q2 ∧
          0 ≤ (optimizeQueue { gInit with q0 := 3, q1 := -1, q2 := 2, q3 := -5 }).q3) ∨
        ((optimizeQueue { gInit with q0 := 3, q1 := -1, q2 := 2, q3 := -5 }).q0 ≤ 0 ∧
          (optimizeQueue { gInit with q0 := 3, q1 := -1, q2 := 2, q3 := -5 }).q1 ≤ 0 ∧
          (optimizeQueue { gInit with q0 := 3, q1 := -1, q2 := 2, q3 := -5 }).q2 ≤ 0 ∧
          (optimizeQueue { gInit with q0 := 3, q1 := -1, q2 := 2, q3 := -5 }).q3 ≤ 0))) :=
  ⟨by decide,
    C2_optimizeQueue_invariant { gInit with q0 := 3, q1 := -1, q2 := 2, q3 := -5 }
      (by decide) (by decide) (by decide) (by decide)⟩

/-! ### The Position Tracker (C1) -/

lemma sensorScanAux_spec (l : List Nat) :
    ∀ (i mx mi sm : Nat),
      (sensorScanAux l i mx mi sm).2.2 = sm + l.sum ∧
      mx ≤ (sensorScanAux l i mx mi sm).1 ∧
      (∀ j (h : j < l.length), l.get ⟨j, h⟩ ≤ (sensorScanAux l i mx mi sm).1) ∧
      ((sensorScanAux l i mx mi sm).1 = mx ∧ (sensorScanAux l i mx mi sm).2.1 = mi ∨
        ∃ j, ∃ h : j < l.length,
          l.get ⟨j, h⟩ = (sensorScanAux l i mx mi sm).1 ∧
          (sensorScanAux l i mx mi sm).2.1 = i + j ∧
          mx < (sensorScanAux l i mx mi sm).1 ∧
          ∀ k (hk : k < j) (hk2 : k < l.length),
            l.get ⟨k, hk2⟩ < (sensorScanAux l i mx mi sm).1) := by
  induction l with
  | nil =>
      intro i mx mi sm
      exact ⟨by simp [sensorScanAux], le_refl _, by intro j h; simp at h, Or.inl ⟨rfl, rfl⟩⟩
  | cons v rest ih =>
      intro i mx mi sm
      by_cases hv : v > mx
      · have hrw : sensorScanAux (v :: rest) i mx mi sm = sensorScanAux rest (i + 1) v i (sm + v) := by
          simp [sensorScanAux, hv]
        obtain ⟨hsum, hmx, hub, hcase⟩ := ih (i + 1) v i (sm + v)
        rw [hrw]
        refine ⟨by rw [hsum]; simp [List.sum_cons]; omega, by omega, ?_, ?_⟩
        · intro j h
          match j with
          | 0 => simpa using hmx
          | k + 1 =>
              have hk : k < rest.length := by simpa using h
              simpa using hub k hk
        · rcases hcase with ⟨hval, hidx⟩ | ⟨j, hj, hget, hidx, hlt, hbefore⟩
          · refine Or.inr ⟨0, by simp, by simpa using hval.symm, by omega, by omega, ?_⟩
            intro k hk hk2
            omega
          · refine Or.inr ⟨j + 1, by simpa using hj, by simpa using hget, by omega, by omega, ?_⟩
            intro k hk hk2
            match k with
            | 0 => simpa using (by omega : v < (sensorScanAux rest (i + 1) v i (sm + v)).1)
            | k0 + 1 =>
                have hk0 : k0 < rest.length := by simpa using hk2
                simpa using hbefore k0 (by omega) hk0
      · have hrw : sensorScanAux (v :: rest) i mx mi sm = sensorScanAux rest (i + 1) mx mi (sm + v) := by
          simp [sensorScanAux, hv]
        obtain ⟨hsum, hmx, hub, hcase⟩ := ih (i + 1) mx mi (sm + v)
        rw [hrw]
        refine ⟨by rw [hsum]; simp [List.sum_cons]; omega, hmx, ?_, ?_⟩
        · intro j h
          match j with
          | 0 => simpa using (by omega : v ≤ (sensorScanAux rest (i + 1) mx mi (sm + v)).1)
          | k + 1 =>
              have hk : k < rest.length := by simpa using h
              simpa using hub k hk
        · rcases hcase with ⟨hval, hidx⟩ | ⟨j, hj, hget, hidx, hlt, hbefore⟩
          · exact Or.inl ⟨hval, hidx⟩
          · refine Or.inr ⟨j + 1, by simpa using hj, by simpa using hget, by omega, hlt, ?_⟩
            intro k hk hk2
            match k with
            | 0 => simpa using (by omega : v < (sensorScanAux rest (i + 1) mx mi (sm + v)).1)
            | k0 + 1 =>
                have hk0 : k0 < rest.length := by simpa using hk2
                simpa using hbefore k0 (by omega) hk0

/-- C1 (amended): for a nonempty sample the Position Tracker returns
"no contact" (-1) exactly when every channel intensity is at most twice the
integer average `sum / N` (C integer division); otherwise it returns the
first index attaining the maximum, whose intensity strictly exceeds twice
that integer average.  (The claim as frozen, which reads the average as the
exact rational mean, is refuted by `C1_position_tracker_counterexample`.) -/
theorem C1_position_tracker_threshold (sample : List Nat) (hne : sample ≠ []) :
    (fingerPosFrom sample = -1 ↔
      ∀ j (h : j < sample.length),
        sample.get ⟨j, h⟩ ≤ 2 * (sample.sum / sample.length)) ∧
    (∀ i : Nat, fingerPosFrom sample = (i : Int) →
      ∃ h : i < sample.length,
        2 * (sample.sum / sample.length) < sample.get ⟨i, h⟩ ∧
        (∀ j (hj : j < sample.length), sample.get ⟨j, hj⟩ ≤ sample.get ⟨i, h⟩) ∧
        (∀ j (hj : j < i) (hj2 : j < sample.length),
          sample.get ⟨j, hj2⟩ < sample.get ⟨i, h⟩)) ∧
    (fingerPosFrom sample = -1 ∨ ∃ i : Nat, fingerPosFrom sample = (i : Int)) := by
  obtain ⟨hsum, hmx, hub, hcase⟩ := sensorScanAux_spec sample 0 0 0 0
  have hsum0 : (sensorScanAux sample 0 0 0 0).2.2 = sample.sum := by simpa using hsum
  have havg : (sensorScanAux sample 0 0 0 0).2.2 / sample.length = sample.sum / sample.length := by
    rw [hsum0]
  by_cases hth : (sensorScanAux sample 0 0 0 0).1 > (sensorScanAux sample 0 0 0 0).2.2 / sample.length * 2
  · -- contact: position is the max index
    have hpos : fingerPosFrom sample = ((sensorScanAux sample 0 0 0 0).2.1 : Int) := by
      simp only [fingerPosFrom, if_pos hth]
    have hmaxpos : 0 < (sensorScanAux sample 0 0 0 0).1 := by omega
    have hattained : ∃ j, ∃ h : j < sample.length,
        sample.get ⟨j, h⟩ = (sensorScanAux sample 0 0 0 0).1 ∧
        (sensorScanAux sample 0 0 0 0).2.1 = j ∧
        ∀ k (hk : k < j) (hk2 : k < sample.length),
          sample.get ⟨k, hk2⟩ < (sensorScanAux sample 0 0 0 0).1 := by
      rcases hcase with ⟨hval, _⟩ | ⟨j, hj, hget, hidx, _, hbefore⟩
      · omega
      · exact ⟨j, hj, hget, by omega, hbefore⟩
    obtain ⟨j0, hj0, hget0, hidx0, hbefore0⟩ := hattained
    refine ⟨?_, ?_, Or.inr ⟨(sensorScanAux sample 0 0 0 0).2.1, hpos⟩⟩
    · constructor
      · intro habs
        rw [hpos] at habs
        exact absurd habs (by simp)
      · intro hall
        have := hall j0 hj0
        rw [hget0] at this
        rw [havg] at hth
        omega
    · intro i hi
      rw [hpos] at hi
      have hii : (sensorScanAux sample 0 0 0 0).2.1 = i := by exact_mod_cast hi
      subst hii
      rw [hidx0]
      refine ⟨hj0, ?_, ?_, ?_⟩
      · rw [hget0, ← havg]; omega
      · intro j hj
        rw [hget0]
        exact hub j hj
      · intro j hj hj2
        rw [hget0]
        exact hbefore0 j hj hj2
  · -- no contact
    have hpos : fingerPosFrom sample = -1 := by
      simp only [fingerPosFrom, if_neg hth]
    refine ⟨?_, ?_, Or.inl hpos⟩
    · constructor
      · intro _ j h
        have := hub j h
        rw [havg] at hth
        omega
      · intro _
        exact hpos
    · intro i hi
      rw [hpos] at hi
      exact absurd hi (by simp)

/-- Counterexample to C1 as frozen: for the 2-channel sample (3, 0) the
maximum 3 is at most twice the exact average 1.5, yet the tracker reports
contact at index 0 instead of "no contact". -/
theorem C1_position_tracker_counterexample :
    (3 : ℚ) ≤ 2 * ((3 + 0) / 2) ∧
    fingerPosFrom [3, 0] ≠ -1 ∧ fingerPosFrom [3, 0] = 0 := by
  refine ⟨by norm_num, by decide, by decide⟩

/-- Witness for the amended C1 at the sample (9, 1, 1). -/
theorem C1_position_tracker_threshold_witness :
    ([9, 1, 1] : List Nat) ≠ [] ∧
    ((fingerPosFrom [9, 1, 1] = -1 ↔
      ∀ j (h : j < ([9, 1, 1] : List Nat).length),
        ([9, 1, 1] : List Nat).get ⟨j, h⟩ ≤ 2 * (([9, 1, 1] : List Nat).sum / ([9, 1, 1] : List Nat).length)) ∧
    (∀ i : Nat, fingerPosFrom [9, 1, 1] = (i : Int) →
      ∃ h : i < ([9, 1, 1] : List Nat).length,
        2 * (([9, 1, 1] : List Nat).sum / ([9, 1, 1] : List Nat).length) < ([9, 1, 1] : List Nat).get ⟨i, h⟩ ∧
        (∀ j (hj : j < ([9, 1, 1] : List Nat).length),
          ([9, 1, 1] : List Nat).get ⟨j, hj⟩ ≤ ([9, 1, 1] : List Nat).get ⟨i, h⟩) ∧
        (∀ j (hj : j < i) (hj2 : j < ([9, 1, 1] : List Nat).length),
          ([9, 1, 1] : List Nat).get ⟨j, hj2⟩ < ([9, 1, 1] : List Nat).get ⟨i, h⟩)) ∧
    (fingerPosFrom [9, 1, 1] = -1 ∨ ∃ i : Nat, fingerPosFrom [9, 1, 1] = (i : Int))) :=
  ⟨by decide, C1_position_tracker_threshold [9, 1, 1] (by decide)⟩

/-! ### Tap state machine (C4, C5) -/

/-- C4 (amended): whenever `waitingForSecondTap` holds at a tick whose
double-tap window has expired (`currentTick - lastTapReleaseTick ≥
DOUBLE_TAP_WINDOW`), `checkTap` either emits the single-tap event
(microphone mute) and clears the wait, or — only when a qualifying tap
release is processed on that same boundary tick — restarts the wait with
`lastTapReleaseTick = currentTick` and emits nothing.  (The claim as
frozen, which promises the single tap unconditionally, is refuted by
`C4_wait_expiry_counterexample`.) -/
theorem C4_wait_expiry_resolution (s : GState)
    (hw : s.waitingForDoubleTap = true)
    (hexp : DOUBLE_TAP_WINDOW ≤ s.currentTime - s.lastTapTime) :
    ((checkTap s).1.waitingForDoubleTap = false ∧
      Event.key KEY_MIC_MUTE 1 ∈ (checkTap s).2) ∨
    (s.isTouching = false ∧ s.releaseProcessed = false ∧
      0 < s.currentTime - s.touchStartTime ∧
      s.currentTime - s.touchStartTime < TAP_MAX_DURATION ∧
      s.hasMoved = false ∧
      (checkTap s).1.waitingForDoubleTap = true ∧
      (checkTap s).1.lastTapTime = s.currentTime ∧
      (checkTap s).2 = []) := by
  unfold checkTap
  dsimp only
  split_ifs with h1 h2 h3 h4 <;>
    simp_all [TAP_MAX_DURATION, DOUBLE_TAP_WINDOW] <;>
    omega

/-- Configuration used by the C4 counterexample run (volume function, no
flip, scale 1). -/
def c4cfg : DeviceConfig := ⟨false, 1, DeviceFunction.volume⟩

/-- Samples driving the C4 counterexample: a tap released on tick 2, no
touch through tick 19, a second touch on ticks 20-21, released on tick 22 —
exactly when the first tap's double-tap window expires. -/
def c4samples : List (List Nat) :=
  [[5, 0]] ++ List.replicate 18 [0, 0] ++ [[5, 0], [5, 0]]

set_option maxRecDepth 8000 in
/-- Counterexample to C4 as frozen: after 21 ticks of `c4samples` the
decoder is waiting (since tick 2), and on tick 22 the window has expired
(22 - 2 = 20 ≥ DOUBLE_TAP_WINDOW), yet the tick emits no event at all —
the qualifying release processed on that tick restarts the wait instead of
letting it resolve into a single tap. -/
theorem C4_wait_expiry_counterexample :
    (runG c4cfg c4samples gInit).waitingForDoubleTap = true ∧
    (runG c4cfg c4samples gInit).lastTapTime = 2 ∧
    (runG c4cfg c4samples gInit).currentTime = 21 ∧
    (onTimer c4cfg [0, 0] (runG c4cfg c4samples gInit)).1.currentTime = 22 ∧
    DOUBLE_TAP_WINDOW ≤ (22 : Int) - 2 ∧
    (onTimer c4cfg [0, 0] (runG c4cfg c4samples gInit)).2 = [] ∧
    (onTimer c4cfg [0, 0] (runG c4cfg c4samples gInit)).1.waitingForDoubleTap = true ∧
    (onTimer c4cfg [0, 0] (runG c4cfg c4samples gInit)).1.lastTapTime = 22 := by
  decide

/-- Witness for the amended C4: expired wait with no pending release. -/
theorem C4_wait_expiry_resolution_witness :
    (⟨-1, 0, 0, 0, 0, 0, 1, 21, false, false, true, true⟩ : GState).waitingForDoubleTap = true ∧
    DOUBLE_TAP_WINDOW ≤ (⟨-1, 0, 0, 0, 0, 0, 1, 21, false, false, true, true⟩ : GState).currentTime -
      (⟨-1, 0, 0, 0, 0, 0, 1, 21, false, false, true, true⟩ : GState).lastTapTime ∧
    (((checkTap ⟨-1, 0, 0, 0, 0, 0, 1, 21, false, false, true, true⟩).1.waitingForDoubleTap = false ∧
      Event.key KEY_MIC_MUTE 1 ∈ (checkTap ⟨-1, 0, 0, 0, 0, 0, 1, 21, false, false, true, true⟩).2) ∨
    ((⟨-1, 0, 0, 0, 0, 0, 1, 21, false, false, true, true⟩ : GState).isTouching = false ∧
      (⟨-1, 0, 0, 0, 0, 0, 1, 21, false, false, true, true⟩ : GState).releaseProcessed = false ∧
      0 < (⟨-1, 0, 0, 0, 0, 0, 1, 21, false, false, true, true⟩ : GState).currentTime -
        (⟨-1, 0, 0, 0, 0, 0, 1, 21, false, false, true, true⟩ : GState).touchStartTime ∧
      (⟨-1, 0, 0, 0, 0, 0, 1, 21, false, false, true, true⟩ : GState).currentTime -
        (⟨-1, 0, 0, 0, 0, 0, 1, 21, false, false, true, true⟩ : GState).touchStartTime < TAP_MAX_DURATION ∧
      (⟨-1, 0, 0, 0, 0, 0, 1, 21, false, false, true, true⟩ : GState).hasMoved = false ∧
      (checkTap ⟨-1, 0, 0, 0, 0, 0, 1, 21, false, false, true, true⟩).1.waitingForDoubleTap = true ∧
      (checkTap ⟨-1, 0, 0, 0, 0, 0, 1, 21, false, false, true, true⟩).1.lastTapTime =
        (⟨-1, 0, 0, 0, 0, 0, 1, 21, false, false, true, true⟩ : GState).currentTime ∧
      (checkTap ⟨-1, 0, 0, 0, 0, 0, 1, 21, false, false, true, true⟩).2 = [])) :=
  ⟨rfl, by decide,
    C4_wait_expiry_resolution ⟨-1, 0, 0, 0, 0, 0, 1, 21, false, false, true, true⟩ rfl (by decide)⟩

/-- C5: on the first tick a release is observed (`isTouching` false,
`releaseProcessed` false), a DoubleTap (lock-workstation event) is emitted
iff `0 < touchDuration < TAP_MAX_DURATION`, the finger never moved, a
second-tap wait is open, and the release falls inside the double-tap
window; a qualifying tap that fails the last two conditions instead arms
the wait and records `lastTapReleaseTick = currentTick`. -/
theorem C5_double_tap_conditions (s : GState)
    (ht : s.isTouching = false) (hr : s.releaseProcessed = false) :
    (Event.key KEY_LOCK_WORKSTATION 1 ∈ (checkTap s).2 ↔
      (0 < s.currentTime - s.touchStartTime ∧
        s.currentTime - s.touchStartTime < TAP_MAX_DURATION ∧
        s.hasMoved = false ∧ s.waitingForDoubleTap = true ∧
        s.currentTime - s.lastTapTime < DOUBLE_TAP_WINDOW)) ∧
    ((0 < s.currentTime - s.touchStartTime ∧
        s.currentTime - s.touchStartTime < TAP_MAX_DURATION ∧
        s.hasMoved = false ∧
        ¬(s.waitingForDoubleTap = true ∧ s.currentTime - s.lastTapTime < DOUBLE_TAP_WINDOW)) →
      (checkTap s).1.waitingForDoubleTap = true ∧
      (checkTap s).1.lastTapTime = s.currentTime) := by
  unfold checkTap
  dsimp only
  split_ifs with h1 h2 h3 h4 <;>
    simp_all [TAP_MAX_DURATION, DOUBLE_TAP_WINDOW, KEY_LOCK_WORKSTATION, KEY_MIC_MUTE]

/-- Witness for C5: a tap release inside an open double-tap window emits
the lock event. -/
theorem C5_double_tap_conditions_witness :
    (⟨-1, 0, 0, 0, 0, 3, 4, 5, false, false, true, false⟩ : GState).isTouching = false ∧
    (⟨-1, 0, 0, 0, 0, 3, 4, 5, false, false, true, false⟩ : GState).releaseProcessed = false ∧
    ((Event.key KEY_LOCK_WORKSTATION 1 ∈ (checkTap ⟨-1, 0, 0, 0, 0, 3, 4, 5, false, false, true, false⟩).2 ↔
      (0 < (⟨-1, 0, 0, 0, 0, 3, 4, 5, false, false, true, false⟩ : GState).currentTime -
          (⟨-1, 0, 0, 0, 0, 3, 4, 5, false, false, true, false⟩ : GState).touchStartTime ∧
        (⟨-1, 0, 0, 0, 0, 3, 4, 5, false, false, true, false⟩ : GState).currentTime -
          (⟨-1, 0, 0, 0, 0, 3, 4, 5, false, false, true, false⟩ : GState).touchStartTime < TAP_MAX_DURATION ∧
        (⟨-1, 0, 0, 0, 0, 3, 4, 5, false, false, true, false⟩ : GState).hasMoved = false ∧
        (⟨-1, 0, 0, 0, 0, 3, 4, 5, false, false, true, false⟩ : GState).waitingForDoubleTap = true ∧
        (⟨-1, 0, 0, 0, 0, 3, 4, 5, false, false, true, false⟩ : GState).currentTime -
          (⟨-1, 0, 0, 0, 0, 3, 4, 5, false, false, true, false⟩ : GState).lastTapTime < DOUBLE_TAP_WINDOW)) ∧
    ((0 < (⟨-1, 0, 0, 0, 0, 3, 4, 5, false, false, true, false⟩ : GState).currentTime -
          (⟨-1, 0, 0, 0, 0, 3, 4, 5, false, false, true, false⟩ : GState).touchStartTime ∧
        (⟨-1, 0, 0, 0, 0, 3, 4, 5, false, false, true, false⟩ : GState).currentTime -
          (⟨-1, 0, 0, 0, 0, 3, 4, 5, false, false, true, false⟩ : GState).touchStartTime < TAP_MAX_DURATION ∧
        (⟨-1, 0, 0, 0, 0, 3, 4, 5, false, false, true, false⟩ : GState).hasMoved = false ∧
        ¬((⟨-1, 0, 0, 0, 0, 3, 4, 5, false, false, true, false⟩ : GState).waitingForDoubleTap = true ∧
          (⟨-1, 0, 0, 0, 0, 3, 4, 5, false, false, true, false⟩ : GState).currentTime -
            (⟨-1, 0, 0, 0, 0, 3, 4, 5, false, false, true, false⟩ : GState).lastTapTime < DOUBLE_TAP_WINDOW)) →
      (checkTap ⟨-1, 0, 0, 0, 0, 3, 4, 5, false, false, true, false⟩).1.waitingForDoubleTap = true ∧
      (checkTap ⟨-1, 0, 0, 0, 0, 3, 4, 5, false, false, true, false⟩).1.lastTapTime =
        (⟨-1, 0, 0, 0, 0, 3, 4, 5, false, false, true, false⟩ : GState).currentTime)) :=
  ⟨rfl, rfl, C5_double_tap_conditions ⟨-1, 0, 0, 0, 0, 3, 4, 5, false, false, true, false⟩ rfl rfl⟩

/-! ### Orientation flip and scale (C6) and queue-cell wrap-around (C10) -/

/-- Direction mirror on reporter events: up keys swap with their down
counterparts and scroll deltas are negated. -/
def negEvent : Event → Event
  | Event.key k m =>
      Event.key
        (if k = KEY_VOLUME_UP then KEY_VOLUME_DOWN
         else if k = KEY_VOLUME_DOWN then KEY_VOLUME_UP
         else if k = KEY_BRIGHTNESS_UP then KEY_BRIGHTNESS_DOWN
         else if k = KEY_BRIGHTNESS_DOWN then KEY_BRIGHTNESS_UP
         else k) m
  | Event.scroll v => Event.scroll (-v)

/-- Magnitude scaling on reporter events. -/
def scaleEvent (k : Int) : Event → Event
  | Event.key a m => Event.key a (k * m)
  | Event.scroll v => Event.scroll (k * v)

lemma slideEvents_neg (f : DeviceFunction) (c : Int) :
    slideEvents f (-c) = (slideEvents f c).map negEvent := by
  cases f <;> rcases lt_trichotomy c 0 with h | h | h
  · have h1 : (0:Int) < -c := by omega
    simp [slideEvents, negEvent, KEY_VOLUME_UP, KEY_VOLUME_DOWN,
      KEY_BRIGHTNESS_UP, KEY_BRIGHTNESS_DOWN, h, h1,
      not_lt.mpr (le_of_lt h1), not_lt.mpr (le_of_lt h)]
  · subst h; simp [slideEvents]
  · have h1 : -c < 0 := by omega
    simp [slideEvents, negEvent, KEY_VOLUME_UP, KEY_VOLUME_DOWN,
      KEY_BRIGHTNESS_UP, KEY_BRIGHTNESS_DOWN, h, h1,
      not_lt.mpr (le_of_lt h1), not_lt.mpr (le_of_lt h)]
  · have h1 : (0:Int) < -c := by omega
    simp [slideEvents, negEvent, KEY_VOLUME_UP, KEY_VOLUME_DOWN,
      KEY_BRIGHTNESS_UP, KEY_BRIGHTNESS_DOWN, h, h1,
      not_lt.mpr (le_of_lt h1), not_lt.mpr (le_of_lt h)]
  · subst h; simp [slideEvents]
  · have h1 : -c < 0 := by omega
    simp [slideEvents, negEvent, KEY_VOLUME_UP, KEY_VOLUME_DOWN,
      KEY_BRIGHTNESS_UP, KEY_BRIGHTNESS_DOWN, h, h1,
      not_lt.mpr (le_of_lt h1), not_lt.mpr (le_of_lt h)]
  · simp [slideEvents, negEvent]
  · subst h; simp [slideEvents, negEvent]
  · simp [slideEvents, negEvent]

lemma slideEvents_smul (f : DeviceFunction) (k c : Int) (hk : 0 < k) :
    slideEvents f (k * c) = (slideEvents f c).map (scaleEvent k) := by
  cases f <;> rcases lt_trichotomy c 0 with h | h | h
  · have h1 : k * c < 0 := mul_neg_of_pos_of_neg hk h
    simp [slideEvents, scaleEvent, h, h1, mul_neg, not_lt.mpr (le_of_lt h1),
      not_lt.mpr (le_of_lt h)]
  · subst h; simp [slideEvents, scaleEvent]
  · have h1 : 0 < k * c := mul_pos hk h
    simp [slideEvents, scaleEvent, h, h1, not_lt.mpr (le_of_lt h1),
      not_lt.mpr (le_of_lt h)]
  · have h1 : k * c < 0 := mul_neg_of_pos_of_neg hk h
    simp [slideEvents, scaleEvent, h, h1, mul_neg, not_lt.mpr (le_of_lt h1),
      not_lt.mpr (le_of_lt h)]
  · subst h; simp [slideEvents, scaleEvent]
  · have h1 : 0 < k * c := mul_pos hk h
    simp [slideEvents, scaleEvent, h, h1, not_lt.mpr (le_of_lt h1),
      not_lt.mpr (le_of_lt h)]
  · simp [slideEvents, scaleEvent]
  · simp [slideEvents, scaleEvent]
  · simp [slideEvents, scaleEvent]

/-- Configuration and state used by the C6 witness. -/
def c6cfg : DeviceConfig := ⟨true, 2, DeviceFunction.volume⟩

def c6state : GState := { gInit with oldFingerPos := 3, isTouching := true }

/-- C6: on a position change between two valid positions, the delta
`oldPos - newPos` is negated when `flipAxis` is set and multiplied by
`scale`, once, as it is stored into queue slot 0 (the other slots are
untouched); the report stage (`checkQueue`) is independent of `flipAxis`
and `scale` and maps the oldest slot through `slideEvents`, which sends a
negated change to the direction-mirrored events and a `k`-scaled change
(`k > 0`) to the same events with `k`-scaled magnitudes, identically in
Volume, Brightness and Scroll modes. -/
theorem C6_flip_scale_at_insertion (cfg : DeviceConfig) (s : GState)
    (sample : List Nat) (k c : Int)
    (h1 : 0 ≤ fingerPosFrom sample) (h2 : 0 ≤ s.oldFingerPos)
    (h3 : fingerPosFrom sample ≠ s.oldFingerPos) (hk : 0 < k) :
    ((checkSensor cfg sample s).q0 =
        wrap8 ((if cfg.flip then -(s.oldFingerPos - fingerPosFrom sample)
                else s.oldFingerPos - fingerPosFrom sample) * cfg.scale) ∧
      (checkSensor cfg sample s).q1 = s.q1 ∧
      (checkSensor cfg sample s).q2 = s.q2 ∧
      (checkSensor cfg sample s).q3 = s.q3) ∧
    (∀ (f : DeviceFunction) (b1 b2 : Bool) (k1 k2 : Int) (q : GState),
      checkQueue ⟨b1, k1, f⟩ q = checkQueue ⟨b2, k2, f⟩ q) ∧
    (∀ (f : DeviceFunction) (b : Bool) (sc : Int) (q : GState),
      (checkQueue ⟨b, sc, f⟩ q).2 = slideEvents f q.q3) ∧
    (∀ (f : DeviceFunction) (c0 : Int),
      slideEvents f (-c0) = (slideEvents f c0).map negEvent) ∧
    (∀ f : DeviceFunction,
      slideEvents f (k * c) = (slideEvents f c).map (scaleEvent k)) := by
  refine ⟨?_, fun f b1 b2 k1 k2 q => rfl, fun f b sc q => rfl,
    slideEvents_neg, fun f => slideEvents_smul f k c hk⟩
  have hch : s.oldFingerPos - fingerPosFrom sample ≠ 0 := by omega
  unfold checkSensor
  dsimp only
  split_ifs <;> simp_all

/-- Witness for C6 at `c6cfg` (flip on, scale 2), old position 3, a sample
selecting channel 0, and scaling factor 2 on change -1. -/
theorem C6_flip_scale_at_insertion_witness :
    0 ≤ fingerPosFrom [9, 1, 1] ∧ 0 ≤ c6state.oldFingerPos ∧
    fingerPosFrom [9, 1, 1] ≠ c6state.oldFingerPos ∧ (0 : Int) < 2 ∧
    (((checkSensor c6cfg [9, 1, 1] c6state).q0 =
        wrap8 ((if c6cfg.flip then -(c6state.oldFingerPos - fingerPosFrom [9, 1, 1])
                else c6state.oldFingerPos - fingerPosFrom [9, 1, 1]) * c6cfg.scale) ∧
      (checkSensor c6cfg [9, 1, 1] c6state).q1 = c6state.q1 ∧
      (checkSensor c6cfg [9, 1, 1] c6state).q2 = c6state.q2 ∧
      (checkSensor c6cfg [9, 1, 1] c6state).q3 = c6state.q3) ∧
    (∀ (f : DeviceFunction) (b1 b2 : Bool) (k1 k2 : Int) (q : GState),
      checkQueue ⟨b1, k1, f⟩ q = checkQueue ⟨b2, k2, f⟩ q) ∧
    (∀ (f : DeviceFunction) (b : Bool) (sc : Int) (q : GState),
      (checkQueue ⟨b, sc, f⟩ q).2 = slideEvents f q.q3) ∧
    (∀ (f : DeviceFunction) (c0 : Int),
      slideEvents f (-c0) = (slideEvents f c0).map negEvent) ∧
    (∀ f : DeviceFunction,
      slideEvents f ((2 : Int) * (-1)) = (slideEvents f (-1)).map (scaleEvent 2))) :=
  ⟨by decide, by decide, by decide, by decide,
    C6_flip_scale_at_insertion c6cfg c6state [9, 1, 1] 2 (-1)
      (by decide) (by decide) (by decide) (by decide)⟩

/-- C10: every value stored into a DeltaQueue cell is a `signed char`:
`wrap8` truncates any `int` to -128..127 by reduction mod 2^8, the product
`change * scale` computed at insertion goes through exactly this
truncation on its way into slot 0, and a large product wraps (200 becomes
-56) rather than saturating or failing. -/
theorem C10_queue_cell_wraps :
    (∀ x : Int, -128 ≤ wrap8 x ∧ wrap8 x ≤ 127 ∧ wrap8 x % 256 = x % 256) ∧
    (checkSensor ⟨false, 100, DeviceFunction.volume⟩ [5, 0, 0]
        ⟨2, 0, 0, 0, 0, 0, 0, 0, false, true, false, true⟩).q0 = wrap8 (2 * 100) ∧
    wrap8 (2 * 100) = -56 := by
  refine ⟨fun x => ⟨?_, ?_, ?_⟩, by decide, by decide⟩ <;>
    (unfold wrap8; omega)

end SoundSlide
